import Mathlib

/-!
Shallow embedding of the Rayleigh Sky Simulator physics core.

Angles are modelled over ℚ (every value produced by the slider / JS number
arithmetic in the source is a rational), and trigonometric quantities land
in ℝ via `Real.sin` / `Real.cos`.
-/

/-- Wavelength band record, from `types.ts` (`WavelengthData`). -/
structure WavelengthData where
  color : String
  name : String
  wavelength : ℚ
  intensity : ℚ
  deriving DecidableEq

/-- Intensity table built in `PhysicsCharts`: `I ∝ 1/λ⁴`, normalised so that
Blue (450 nm) has intensity 100; entries ordered Blue, Green, Red. -/
def scatteringData : List WavelengthData :=
  let r : ℚ := 650
  let g : ℚ := 550
  let b : ℚ := 450
  let iBlue : ℚ := 1 / b ^ 4
  let factor : ℚ := 100 / iBlue
  [ ⟨"#3b82f6", "Blue", 450, (1 / b ^ 4) * factor⟩,
    ⟨"#22c55e", "Green", 550, (1 / g ^ 4) * factor⟩,
    ⟨"#ef4444", "Red", 650, (1 / r ^ 4) * factor⟩ ]

/-- The `PhysicsCharts` component receives `sunAngle`, but its data table is
memoised with an empty dependency list and never reads the angle. -/
def physicsChartsData (_sunAngle : ℚ) : List WavelengthData := scatteringData

/-- `effectiveAngle = sunAngle > 90 ? 180 - sunAngle : sunAngle`
(in `PhysicsCharts` and `App.fetchExplanation`). -/
def effectiveAngle (a : ℚ) : ℚ := if a > 90 then 180 - a else a

/-- `clampedAngle = Math.max(effectiveAngle, 5)`. -/
def clampedAngle (a : ℚ) : ℚ := max (effectiveAngle a) 5

/-- `pathLength = 1 / Math.sin(clampedAngle * Math.PI / 180)`. -/
noncomputable def pathLengthFactor (a : ℚ) : ℝ :=
  1 / Real.sin ((clampedAngle a : ℝ) * Real.pi / 180)

/-- `getPhaseLabel` from `App.tsx`. -/
def getPhaseLabel (angle : ℚ) : String :=
  if angle < 20 then "Sunrise"
  else if angle < 70 then "Morning"
  else if angle < 110 then "Midday"
  else if angle < 160 then "Afternoon"
  else "Sunset"

/-- `distFromNoon = Math.abs(sunAngle - 90)` in `SkySimulation`. -/
def distFromNoon (a : ℚ) : ℚ := |a - 90|

/-- `sunsetFactor = Math.min(1, Math.pow(distFromNoon / 90, 3))`. -/
def sunsetFactor (a : ℚ) : ℚ := min 1 ((distFromNoon a / 90) ^ 3)

/-- `sunX = cx - orbitRadius * Math.cos(rad)` with `rad = sunAngle * π / 180`. -/
noncomputable def sunX (sunAngle cx orbitRadius : ℝ) : ℝ :=
  cx - orbitRadius * Real.cos (sunAngle * Real.pi / 180)

/-- `sunY = cy - orbitRadius * Math.sin(rad)` with `rad = sunAngle * π / 180`. -/
noncomputable def sunY (sunAngle cy orbitRadius : ℝ) : ℝ :=
  cy - orbitRadius * Real.sin (sunAngle * Real.pi / 180)

/-- The drawing surface as the render effect in `SkySimulation.tsx` sees it:
whether `canvasRef.current` is non-null, whether `getContext` returned a
context, and the logical (CSS) extent of the surface. -/
structure Surface where
  canvasPresent : Bool
  ctxPresent : Bool
  width : ℚ
  height : ℚ

/-- Geometry the render effect computes when it draws:
`cx = width / 2`, `cy = height * 0.85`, `orbitRadius = width * 0.4`. -/
structure RenderGeometry where
  cx : ℚ
  cy : ℚ
  orbitRadius : ℚ
  deriving DecidableEq

/-- The early-return structure of the render effect in `SkySimulation.tsx`:
it returns without drawing exactly when the canvas ref is null or
`getContext` yields no context; otherwise it computes the geometry and
draws. There is no width/height guard in the source. -/
def renderStep (s : Surface) : Option RenderGeometry :=
  if !s.canvasPresent then none
  else if !s.ctxPresent then none
  else some ⟨s.width / 2, s.height * (17 / 20), s.width * (2 / 5)⟩

/-- Outcome of the `generateContent` call in `explainSkyPhysics`:
either the awaited call throws, or it succeeds with `response.text`
(possibly `undefined`, modelled as `none`). -/
inductive ApiOutcome where
  | failure
  | success (text : Option String)

/-- Fallback returned when `process.env.API_KEY` is absent or empty. -/
def offlineFallback : String :=
  "Simulation is running in offline mode. AI explanations require a valid API_KEY in the environment variables."

/-- Fallback substituted for a falsy `response.text` (undefined or empty). -/
def emptyResponseFallback : String :=
  "Unable to generate explanation at the moment."

/-- Fallback produced by the catch-all handler. -/
def errorFallback : String :=
  "The AI physicist is currently offline. Please check your connection and API key."

/-- `explainSkyPhysics` from `geminiService.ts`, with the environment
(`API_KEY`) and the network outcome made explicit. `!apiKey` in JS is true
for both a missing and an empty string, and `response.text || fallback`
falls back on both `undefined` and the empty string. -/
def explainSkyPhysics (apiKey : Option String) (outcome : ApiOutcome) : String :=
  match apiKey with
  | none => offlineFallback
  | some k =>
    if k = "" then offlineFallback
    else
      match outcome with
      | .failure => errorFallback
      | .success none => emptyResponseFallback
      | .success (some t) => if t = "" then emptyResponseFallback else t

/-- `timeOfDay = sunAngle < 20 ? "Sunrise" : sunAngle > 160 ? "Sunset" : "Midday"`,
the classification embedded in the prompt built by `explainSkyPhysics`. -/
def timeOfDay (sunAngle : ℚ) : String :=
  if sunAngle < 20 then "Sunrise" else if sunAngle > 160 then "Sunset" else "Midday"

/-! Helper lemmas. -/

lemma clampedAngle_ge (a : ℚ) : 5 ≤ clampedAngle a := le_max_right _ _

lemma clampedAngle_le (a : ℚ) : clampedAngle a ≤ 90 := by
  unfold clampedAngle effectiveAngle
  split_ifs with h
  · exact max_le (by linarith) (by norm_num)
  · exact max_le (by linarith) (by norm_num)

lemma sin_deg_pos {x : ℝ} (h0 : 0 < x) (h1 : x < 180) :
    0 < Real.sin (x * Real.pi / 180) := by
  have hπ := Real.pi_pos
  apply Real.sin_pos_of_pos_of_lt_pi
  · exact div_pos (mul_pos h0 hπ) (by norm_num)
  · nlinarith

lemma sin_deg_mono {x y : ℝ} (h0 : 0 ≤ x) (h90 : y ≤ 90) (hxy : x ≤ y) :
    Real.sin (x * Real.pi / 180) ≤ Real.sin (y * Real.pi / 180) := by
  have hπ := Real.pi_pos
  apply Real.sin_le_sin_of_le_of_le_pi_div_two
  · nlinarith
  · nlinarith
  · nlinarith

lemma clampedAngle_cast_ge (a : ℚ) : (5 : ℝ) ≤ (clampedAngle a : ℝ) := by
  exact_mod_cast clampedAngle_ge a

lemma clampedAngle_cast_le (a : ℚ) : (clampedAngle a : ℝ) ≤ 90 := by
  exact_mod_cast clampedAngle_le a

lemma sin_clamped_pos (a : ℚ) :
    0 < Real.sin ((clampedAngle a : ℝ) * Real.pi / 180) := by
  apply sin_deg_pos
  · linarith [clampedAngle_cast_ge a]
  · linarith [clampedAngle_cast_le a]

/-! Claim theorems. -/

/-- Claim C1: for every input angle, `clampedAngle` lies in [5, 90], the sine
in `pathLengthFactor` is never zero, `1 ≤ pathLengthFactor ≤ 1/sin(5°)`, and
`pathLengthFactor 90 = 1` exactly. -/
theorem C1_pathLengthFactor_bounds :
    (∀ a : ℚ, 5 ≤ clampedAngle a ∧ clampedAngle a ≤ 90) ∧
    (∀ a : ℚ, Real.sin ((clampedAngle a : ℝ) * Real.pi / 180) ≠ 0) ∧
    (∀ a : ℚ, 1 ≤ pathLengthFactor a ∧
      pathLengthFactor a ≤ 1 / Real.sin (5 * Real.pi / 180)) ∧
    pathLengthFactor 90 = 1 := by
  refine ⟨fun a => ⟨clampedAngle_ge a, clampedAngle_le a⟩,
    fun a => (sin_clamped_pos a).ne', fun a => ?_, ?_⟩
  · unfold pathLengthFactor
    constructor
    · exact one_le_one_div (sin_clamped_pos a) (Real.sin_le_one _)
    · apply one_div_le_one_div_of_le
      · exact sin_deg_pos (by norm_num) (by norm_num)
      · exact sin_deg_mono (by norm_num) (clampedAngle_cast_le a) (clampedAngle_cast_ge a)
  · unfold pathLengthFactor
    have h90 : ((clampedAngle 90 : ℚ) : ℝ) = 90 := by
      have : clampedAngle 90 = 90 := by decide
      rw [this]; norm_num
    rw [h90]
    have harg : (90 : ℝ) * Real.pi / 180 = Real.pi / 2 := by ring
    rw [harg, Real.sin_pi_div_two]
    norm_num

/-- Claim C2: the intensity table is ordered Blue (450), Green (550), Red
(650); Blue's intensity is exactly 100; Red < Green < Blue; the Blue/Red
ratio is (650/450)⁴; and the table does not depend on the sun angle. -/
theorem C2_intensity_table :
    (∀ a1 a2 : ℚ, physicsChartsData a1 = physicsChartsData a2) ∧
    ∃ blue green red : WavelengthData,
      scatteringData = [blue, green, red] ∧
      blue.name = "Blue" ∧ green.name = "Green" ∧ red.name = "Red" ∧
      blue.wavelength = 450 ∧ green.wavelength = 550 ∧ red.wavelength = 650 ∧
      blue.intensity = 100 ∧
      red.intensity < green.intensity ∧ green.intensity < blue.intensity ∧
      blue.intensity / red.intensity = (650 / 450) ^ 4 := by
  refine ⟨fun a1 a2 => rfl,
    ⟨"#3b82f6", "Blue", 450, 100⟩,
    ⟨"#22c55e", "Green", 550, 656100 / 14641⟩,
    ⟨"#ef4444", "Red", 650, 656100 / 28561⟩,
    by norm_num [scatteringData], rfl, rfl, rfl, rfl, rfl, rfl, rfl,
    by norm_num, by norm_num, by norm_num⟩

/-- Claim C3: on [0, 180] the effective angle is symmetric about 90
(`effectiveAngle a = effectiveAngle (180 - a)`), and consequently
`pathLengthFactor 175 = pathLengthFactor 5`. -/
theorem C3_effectiveAngle_symmetry :
    (∀ a : ℚ, 0 ≤ a → a ≤ 180 → effectiveAngle a = effectiveAngle (180 - a)) ∧
    pathLengthFactor 175 = pathLengthFactor 5 := by
  constructor
  · intro a _ _
    unfold effectiveAngle
    split_ifs <;> linarith
  · unfold pathLengthFactor
    have h : clampedAngle 175 = clampedAngle 5 := by
      norm_num [clampedAngle, effectiveAngle]
    rw [h]

/-- Witness for C3 at a = 30. -/
theorem C3_effectiveAngle_symmetry_witness :
    effectiveAngle 30 = effectiveAngle (180 - 30) :=
  C3_effectiveAngle_symmetry.1 30 (by decide) (by decide)

/-- Claim C4: over effective angles in [5, 90], `pathLengthFactor` is
monotonically non-increasing as the effective angle increases. -/
theorem C4_pathLengthFactor_antitone :
    ∀ a1 a2 : ℚ, 5 ≤ effectiveAngle a1 → effectiveAngle a1 ≤ 90 →
      5 ≤ effectiveAngle a2 → effectiveAngle a2 ≤ 90 →
      effectiveAngle a1 ≤ effectiveAngle a2 →
      pathLengthFactor a2 ≤ pathLengthFactor a1 := by
  intro a1 a2 h15 h190 h25 h290 h12
  unfold pathLengthFactor
  have hc1 : clampedAngle a1 = effectiveAngle a1 := max_eq_left h15
  have hc2 : clampedAngle a2 = effectiveAngle a2 := max_eq_left h25
  rw [hc1, hc2]
  apply one_div_le_one_div_of_le
  · apply sin_deg_pos
    · have : (5 : ℝ) ≤ (effectiveAngle a1 : ℝ) := by exact_mod_cast h15
      linarith
    · have : ((effectiveAngle a1 : ℚ) : ℝ) ≤ 90 := by exact_mod_cast h190
      linarith
  · apply sin_deg_mono
    · have : (5 : ℝ) ≤ (effectiveAngle a1 : ℝ) := by exact_mod_cast h15
      linarith
    · exact_mod_cast h290
    · exact_mod_cast h12

/-- Witness for C4 at a1 = 10, a2 = 20. -/
theorem C4_pathLengthFactor_antitone_witness :
    pathLengthFactor 20 ≤ pathLengthFactor 10 :=
  C4_pathLengthFactor_antitone 10 20 (by decide) (by decide) (by decide)
    (by decide) (by decide)

/-- Claim C5: `sunsetFactor 90 = 0`, `sunsetFactor 0 = sunsetFactor 180 = 1`,
the factor stays in [0, 1] on [0, 180], and it is monotone non-decreasing in
the distance from noon. -/
theorem C5_sunsetFactor_properties :
    sunsetFactor 90 = 0 ∧ sunsetFactor 0 = 1 ∧ sunsetFactor 180 = 1 ∧
    (∀ a : ℚ, 0 ≤ a → a ≤ 180 → 0 ≤ sunsetFactor a ∧ sunsetFactor a ≤ 1) ∧
    (∀ a1 a2 : ℚ, |a1 - 90| ≤ |a2 - 90| → sunsetFactor a1 ≤ sunsetFactor a2) := by
  refine ⟨by norm_num [sunsetFactor, distFromNoon],
    by norm_num [sunsetFactor, distFromNoon, abs_of_nonpos],
    by norm_num [sunsetFactor, distFromNoon, abs_of_nonneg],
    fun a _ _ => ?_, fun a1 a2 h => ?_⟩
  · unfold sunsetFactor distFromNoon
    constructor
    · apply le_min (by norm_num)
      positivity
    · exact min_le_left _ _
  · unfold sunsetFactor distFromNoon
    apply min_le_min le_rfl
    apply pow_le_pow_left₀ (by positivity)
    exact (div_le_div_iff_of_pos_right (by norm_num)).mpr h

/-- Witness for C5 at a = 45 (bounds) and a1 = 100, a2 = 120 (monotonicity). -/
theorem C5_sunsetFactor_properties_witness :
    (0 ≤ sunsetFactor 45 ∧ sunsetFactor 45 ≤ 1) ∧
    sunsetFactor 100 ≤ sunsetFactor 120 :=
  ⟨C5_sunsetFactor_properties.2.2.2.1 45 (by norm_num) (by norm_num),
   C5_sunsetFactor_properties.2.2.2.2 100 120 (by norm_num)⟩

/-- Claim C6: `getPhaseLabel` partitions the raw angle range with boundaries
at 20, 70, 110, 160 into the five phases, and in particular
`getPhaseLabel 5 = Sunrise`, `getPhaseLabel 90 = Midday`,
`getPhaseLabel 175 = Sunset`. -/
theorem C6_phaseLabel_partition :
    (∀ a : ℚ, a < 20 → getPhaseLabel a = "Sunrise") ∧
    (∀ a : ℚ, 20 ≤ a → a < 70 → getPhaseLabel a = "Morning") ∧
    (∀ a : ℚ, 70 ≤ a → a < 110 → getPhaseLabel a = "Midday") ∧
    (∀ a : ℚ, 110 ≤ a → a < 160 → getPhaseLabel a = "Afternoon") ∧
    (∀ a : ℚ, 160 ≤ a → getPhaseLabel a = "Sunset") ∧
    getPhaseLabel 5 = "Sunrise" ∧ getPhaseLabel 90 = "Midday" ∧
    getPhaseLabel 175 = "Sunset" := by
  refine ⟨fun a h => ?_, fun a h1 h2 => ?_, fun a h1 h2 => ?_,
    fun a h1 h2 => ?_, fun a h => ?_, by norm_num [getPhaseLabel],
    by norm_num [getPhaseLabel], by norm_num [getPhaseLabel]⟩ <;>
    · unfold getPhaseLabel
      split_ifs <;> first | rfl | (exfalso; linarith)

/-- Witness for C6 at a = 30 (Morning band). -/
theorem C6_phaseLabel_partition_witness :
    getPhaseLabel 30 = "Morning" :=
  C6_phaseLabel_partition.2.1 30 (by norm_num) (by norm_num)

/-- Claim C7: the rendered sun position equals the arc parameterisation
`theta = π - radians(a)`, `x = cx + R cos θ`, `y = cy - R sin θ`. -/
theorem C7_sun_position_arc :
    ∀ a cx cy R : ℝ,
      sunX a cx R = cx + R * Real.cos (Real.pi - a * Real.pi / 180) ∧
      sunY a cy R = cy - R * Real.sin (Real.pi - a * Real.pi / 180) := by
  intro a cx cy R
  constructor
  · unfold sunX
    rw [Real.cos_pi_sub]
    ring
  · unfold sunY
    rw [Real.sin_pi_sub]

/-- Claim C8: `explainSkyPhysics` always yields a string; a missing (or
empty) credential yields the offline fallback, an API failure yields the
error fallback, and an empty or undefined response yields the
empty-response fallback; a non-empty response is returned as-is. -/
theorem C8_explain_fallbacks :
    (∀ outcome, explainSkyPhysics none outcome = offlineFallback) ∧
    (∀ outcome, explainSkyPhysics (some "") outcome = offlineFallback) ∧
    (∀ k, k ≠ "" → explainSkyPhysics (some k) .failure = errorFallback) ∧
    (∀ k, k ≠ "" →
      explainSkyPhysics (some k) (.success none) = emptyResponseFallback) ∧
    (∀ k, k ≠ "" →
      explainSkyPhysics (some k) (.success (some "")) = emptyResponseFallback) ∧
    (∀ k t, k ≠ "" → t ≠ "" →
      explainSkyPhysics (some k) (.success (some t)) = t) := by
  refine ⟨fun outcome => rfl, fun outcome => rfl, fun k hk => ?_, fun k hk => ?_,
    fun k hk => ?_, fun k t hk ht => ?_⟩ <;>
    simp [explainSkyPhysics, hk]
  exact fun h => absurd h ht

/-- Witness for C8 with key "key" and response text "because physics". -/
theorem C8_explain_fallbacks_witness :
    explainSkyPhysics (some "key") .failure = errorFallback ∧
    explainSkyPhysics (some "key") (.success (some "because physics")) =
      "because physics" :=
  ⟨C8_explain_fallbacks.2.2.1 "key" (by decide),
   C8_explain_fallbacks.2.2.2.2.2 "key" "because physics" (by decide) (by decide)⟩

/-- Claim C9 is false on the code: a present canvas and context with zero
extent still draws — the render effect has no width/height guard. -/
theorem C9_zero_extent_counterexample :
    ¬ (∀ s : Surface, (s.width = 0 ∨ s.height = 0) → renderStep s = none) := by
  intro h
  have := h ⟨true, true, 0, 0⟩ (Or.inl rfl)
  exact absurd this (by decide)

/-- Claim C9 amended: the render step no-ops exactly when the canvas is
absent or no drawing context is produced; the surface's extent plays no
part in the skip decision. -/
theorem C9_render_skip_condition :
    ∀ s : Surface,
      (renderStep s = none ↔ (s.canvasPresent = false ∨ s.ctxPresent = false)) := by
  intro s
  rcases s with ⟨c, x, w, h⟩
  cases c <;> cases x <;> simp [renderStep]

/-- Claim C10: the prompt's time-of-day classification is three-valued
("Sunrise" below 20, "Sunset" strictly above 160, else "Midday"), so it is
"Midday" on all of [20, 160] and disagrees with the UI's five-phase
`getPhaseLabel` on [20, 70), on [110, 160), and at exactly 160. -/
theorem C10_prompt_time_of_day :
    (∀ a : ℚ, 20 ≤ a → a ≤ 160 → timeOfDay a = "Midday") ∧
    (∀ a : ℚ, a < 20 → timeOfDay a = "Sunrise") ∧
    (∀ a : ℚ, 160 < a → timeOfDay a = "Sunset") ∧
    (∀ a : ℚ, 20 ≤ a → a < 70 → timeOfDay a ≠ getPhaseLabel a) ∧
    (∀ a : ℚ, 110 ≤ a → a < 160 → timeOfDay a ≠ getPhaseLabel a) ∧
    timeOfDay 160 ≠ getPhaseLabel 160 := by
  refine ⟨fun a h1 h2 => ?_, fun a h => ?_, fun a h => ?_,
    fun a h1 h2 => ?_, fun a h1 h2 => ?_, by
      have e1 : timeOfDay 160 = "Midday" := by norm_num [timeOfDay]
      have e2 : getPhaseLabel 160 = "Sunset" := by norm_num [getPhaseLabel]
      rw [e1, e2]
      decide⟩ <;>
    · simp only [timeOfDay, getPhaseLabel]
      split_ifs <;> first | rfl | decide | (exfalso; linarith)

/-- Witness for C10 at a = 45: the prompt says "Midday" while the UI label
is "Morning". -/
theorem C10_prompt_time_of_day_witness :
    timeOfDay 45 = "Midday" ∧ timeOfDay 45 ≠ getPhaseLabel 45 :=
  ⟨C10_prompt_time_of_day.1 45 (by norm_num) (by norm_num),
   C10_prompt_time_of_day.2.2.2.1 45 (by norm_num) (by norm_num)⟩
